import Mathlib

set_option maxRecDepth 100000

/-!
Shallow embedding of the blog-generator backend.

The repository ships two backend variants of the same program:
the template-mode backend (src/unnamed/part_000, "Tpl" below where names
collide) and the external-provider backend (src/backend/main.go, "Main"
suffix where names collide).  Pure logic is translated directly; network
traversal, the filesystem and the image provider are modelled as explicit
inputs (the list of fetched page elements per entry point, an association
list of stored records, and a query-to-response function).  Go `string`
values are modelled as Lean `String` with `len` as character count, and
the Go standard-library helpers used by the code (`strings.TrimSpace`,
`strings.Split`, `strings.Fields`, `url.QueryEscape`) are modelled by the
executable functions `goTrim`, `goSplitBlank`, `goFields`, `queryEscape`.
-/

/-- Model of Go `strings.TrimSpace`: strip leading and trailing whitespace. -/
def goTrim (s : String) : String :=
  ⟨((s.data.dropWhile Char.isWhitespace).reverse.dropWhile Char.isWhitespace).reverse⟩

/-- Auxiliary scanner for splitting a character list on the two-character
separator `"\n\n"`, left to right, non-overlapping. -/
def splitBlankAux : List Char → List Char → List (List Char)
  | '\n' :: '\n' :: rest, cur => cur.reverse :: splitBlankAux rest []
  | c :: rest, cur => splitBlankAux rest (c :: cur)
  | [], cur => [cur.reverse]

/-- Model of Go `strings.Split(s, "\n\n")`, the only separator the code uses. -/
def goSplitBlank (s : String) : List String :=
  (splitBlankAux s.data []).map String.mk

/-- Auxiliary scanner collecting maximal runs of non-whitespace characters. -/
def fieldsAux : List Char → List Char → List (List Char)
  | c :: rest, cur =>
    if c.isWhitespace then
      (if cur.isEmpty then fieldsAux rest [] else cur.reverse :: fieldsAux rest [])
    else fieldsAux rest (c :: cur)
  | [], cur => if cur.isEmpty then [] else [cur.reverse]

/-- Model of Go `strings.Fields`: whitespace-separated tokens. -/
def goFields (s : String) : List String :=
  (fieldsAux s.data []).map String.mk

/-- `BlogContent` (src/unnamed/part_000 lines 24-34): one typed content block.
The main.go variant declares the same struct without the last three fields;
this embedding uses the full schema, of which main.go's is the restriction
that keeps `citation`/`items`/`ordered` at their zero values. -/
structure BlogContent where
  type : String := ""
  text : String := ""
  level : Nat := 0
  url : String := ""
  alt : String := ""
  caption : String := ""
  citation : String := ""
  items : List String := []
  ordered : Bool := false
deriving DecidableEq

/-- `BlogPost` (src/unnamed/part_000 lines 37-48): the persisted document. -/
structure BlogPost where
  id : String := ""
  title : String := ""
  author : String := ""
  date : String := ""
  summary : String := ""
  content : List BlogContent := []
  featuredImage : String := ""
  tags : List String := []
  readingTime : Nat := 0
  topic : String := ""
deriving DecidableEq

/-- `ScrapedContent` (src/unnamed/part_000 lines 56-61): one corpus record. -/
structure ScrapedContent where
  url : String := ""
  title : String := ""
  text : String := ""
  publishedAt : String := ""
deriving DecidableEq

/-- `LlamaIndexPrompt` (src/unnamed/part_000 lines 64-67): topic plus corpus. -/
structure LlamaIndexPrompt where
  topic : String
  contents : List ScrapedContent
deriving DecidableEq

/-- `LlamaIndexResponse` (src/backend/main.go lines 66-72): the external
generation provider's reply. -/
structure LlamaIndexResponse where
  title : String := ""
  content : List BlogContent := []
  featuredImage : String := ""
  tags : List String := []
  summary : String := ""
deriving DecidableEq

/-! ## JSON serialization (Go `encoding/json` on these struct types) -/

/-- JSON value tree, the target of Go marshalling in this embedding. -/
inductive Json where
  | null
  | str (s : String)
  | num (n : Int)
  | bool (b : Bool)
  | arr (elems : List Json)
  | obj (fields : List (String × Json))

/-- An `omitempty`-tagged field: emitted only when `skip` is false. -/
def optF (skip : Bool) (k : String) (v : Json) : List (String × Json) :=
  if skip then [] else [(k, v)]

/-- First binding of a key in a JSON object's field list. -/
def getField : List (String × Json) → String → Option Json
  | [], _ => none
  | (k, v) :: rest, n => if k = n then some v else getField rest n

/-- Decode a string field; a missing field yields the Go zero value `""`. -/
def asStr : Option Json → Option String
  | none => some ""
  | some (Json.str s) => some s
  | some _ => none

/-- Decode a non-negative integer field; missing yields `0`. -/
def asNat : Option Json → Option Nat
  | none => some 0
  | some (Json.num n) => if 0 ≤ n then some n.toNat else none
  | some _ => none

/-- Decode a boolean field; missing yields `false`. -/
def asBool : Option Json → Option Bool
  | none => some false
  | some (Json.bool b) => some b
  | some _ => none

/-- Decode a JSON array of strings elementwise, failing on any non-string
element, as Go unmarshalling into `[]string` does. -/
def decodeStrings : List Json → Option (List String)
  | [] => some []
  | Json.str s :: rest => (decodeStrings rest).map (fun l => s :: l)
  | _ => none

/-- Decode a string-array field; missing or `null` yields the empty list,
matching Go unmarshalling into a nil slice. -/
def asStrList : Option Json → Option (List String)
  | none => some []
  | some Json.null => some []
  | some (Json.arr xs) => decodeStrings xs
  | some _ => none

/-- The field list Go `json.Marshal` emits for a `BlogContent` value:
`type` is always emitted, every other field carries `omitempty`
(src/unnamed/part_000 lines 24-34). -/
def encFields (b : BlogContent) : List (String × Json) :=
  ("type", Json.str b.type) ::
    (optF (b.text = "") "text" (Json.str b.text) ++
      (optF (b.level = 0) "level" (Json.num (Int.ofNat b.level)) ++
        (optF (b.url = "") "url" (Json.str b.url) ++
          (optF (b.alt = "") "alt" (Json.str b.alt) ++
            (optF (b.caption = "") "caption" (Json.str b.caption) ++
              (optF (b.citation = "") "citation" (Json.str b.citation) ++
                (optF (b.items = []) "items" (Json.arr (b.items.map Json.str)) ++
                  optF (b.ordered = false) "ordered" (Json.bool b.ordered))))))))

/-- Go `json.Marshal` of a `BlogContent` value. -/
def encodeBlogContent (b : BlogContent) : Json :=
  Json.obj (encFields b)

/-- Go `json.Unmarshal` into a `BlogContent`: absent fields keep zero
values, present fields of the wrong shape fail the whole decode. -/
def decodeBlogContent : Json → Option BlogContent
  | Json.obj fs => do
      let ty ← asStr (getField fs "type")
      let text ← asStr (getField fs "text")
      let level ← asNat (getField fs "level")
      let url ← asStr (getField fs "url")
      let alt ← asStr (getField fs "alt")
      let caption ← asStr (getField fs "caption")
      let citation ← asStr (getField fs "citation")
      let items ← asStrList (getField fs "items")
      let ordered ← asBool (getField fs "ordered")
      some { type := ty, text := text, level := level, url := url, alt := alt,
             caption := caption, citation := citation, items := items, ordered := ordered }
  | _ => none

/-- Decode a JSON array of content blocks elementwise, failing on the first
undecodable element. -/
def decodeContents : List Json → Option (List BlogContent)
  | [] => some []
  | j :: rest =>
    match decodeBlogContent j with
    | none => none
    | some b => (decodeContents rest).map (fun l => b :: l)

/-- Go `json.Marshal` of a `BlogPost`: no field carries `omitempty`, so all
ten fields are always emitted (src/unnamed/part_000 lines 37-48). -/
def encodeBlogPost (b : BlogPost) : Json :=
  Json.obj [("id", Json.str b.id), ("title", Json.str b.title),
    ("author", Json.str b.author), ("date", Json.str b.date),
    ("summary", Json.str b.summary),
    ("content", Json.arr (b.content.map encodeBlogContent)),
    ("featuredImage", Json.str b.featuredImage),
    ("tags", Json.arr (b.tags.map Json.str)),
    ("readingTime", Json.num (Int.ofNat b.readingTime)),
    ("topic", Json.str b.topic)]

/-- Go `json.Unmarshal` into a `BlogPost`. -/
def decodeBlogPost : Json → Option BlogPost
  | Json.obj fs => do
      let id ← asStr (getField fs "id")
      let title ← asStr (getField fs "title")
      let author ← asStr (getField fs "author")
      let date ← asStr (getField fs "date")
      let summary ← asStr (getField fs "summary")
      let contentJson ← match getField fs "content" with
        | none => some []
        | some Json.null => some []
        | some (Json.arr xs) => some xs
        | some _ => none
      let content ← decodeContents contentJson
      let featuredImage ← asStr (getField fs "featuredImage")
      let tags ← asStrList (getField fs "tags")
      let readingTime ← asNat (getField fs "readingTime")
      let topic ← asStr (getField fs "topic")
      some { id := id, title := title, author := author, date := date,
             summary := summary, content := content, featuredImage := featuredImage,
             tags := tags, readingTime := readingTime, topic := topic }
  | _ => none

/-! ## Store (data/blogs directory, one JSON file per document id) -/

/-- The durable store: one record per filename stem, in stable enumeration
order.  `fsWrite` models `os.Create`/`ioutil.WriteFile`: it truncates an
existing record in place or creates a new one. -/
def fsWrite : List (String × Json) → String → Json → List (String × Json)
  | [], k, v => [(k, v)]
  | (k', v') :: rest, k, v =>
    if k' = k then (k, v) :: rest else (k', v') :: fsWrite rest k v

/-- Read one stored record by filename stem. -/
def fsRead : List (String × Json) → String → Option Json
  | [], _ => none
  | (k', v') :: rest, k => if k' = k then some v' else fsRead rest k

/-- `saveBlogPost` (src/unnamed/part_000 lines 404-417, src/backend/main.go
lines 320-337): serialize the document and write it under its id. -/
def saveBlogPost (store : List (String × Json)) (blog : BlogPost) : List (String × Json) :=
  fsWrite store blog.id (encodeBlogPost blog)

/-- `getBlogByID` (src/unnamed/part_000 lines 499-513): read the record for
`id` and decode it; a missing file or an undecodable record is `none`. -/
def getBlogByID (store : List (String × Json)) (id : String) : Option BlogPost :=
  (fsRead store id).bind decodeBlogPost

/-- `getAllBlogs` (src/unnamed/part_000 lines 471-496): decode every stored
record, silently skipping any that fails to decode. -/
def getAllBlogs (store : List (String × Json)) : List BlogPost :=
  store.filterMap (fun e => decodeBlogPost e.2)

/-- A present-but-unparseable record used to model on-disk corruption: Go
`json.Unmarshal` of a bare string into a `BlogPost` struct fails. -/
def corruptJson : Json := Json.str "corrupted-record"

/-! ## Extractor and Crawler -/

/-- One HTML element matched by the collector's
`"article, .article, .post, .entry, main, .content"` callback:
its page URL, the `ChildText` of the title candidates, the raw text of each
`p` descendant, and the `ChildText` of the timestamp candidates. -/
structure PageElement where
  url : String := ""
  headerText : String := ""
  paragraphs : List String := []
  dateText : String := ""
deriving DecidableEq

/-- The paragraph loop of the extraction callback (src/unnamed/part_000
lines 230-235, src/backend/main.go lines 261-266): trim each paragraph and
append it plus a blank line when its trimmed length exceeds 20. -/
def buildBody (paras : List String) : String :=
  paras.foldl (fun acc p =>
    let t := goTrim p
    if 20 < t.length then acc ++ t ++ "\n\n" else acc) ""

/-- The record assembled by the extraction callback before the acceptance
check (src/unnamed/part_000 lines 223-241). -/
def extractFromElement (e : PageElement) : ScrapedContent :=
  { url := e.url, title := e.headerText, text := buildBody e.paragraphs,
    publishedAt := e.dateText }

/-- The collector's accumulation across matched elements: stop appending at
`maxCount` accepted records, and accept a record only when its title is
non-empty and its body is longer than 100 characters
(src/unnamed/part_000 lines 218-248). -/
def collectScraped (maxCount : Nat) (elems : List PageElement) : List ScrapedContent :=
  elems.foldl (fun acc e =>
    if maxCount ≤ acc.length then acc
    else
      let c := extractFromElement e
      if c.title ≠ "" ∧ 100 < c.text.length then acc ++ [c] else acc) []

/-- First synthetic backfill record of the template backend
(src/unnamed/part_000 lines 267-272). -/
def synTpl1 (topic today : String) : ScrapedContent :=
  { url := "https://example.com/article1",
    title := "Latest developments on " ++ topic,
    text := "This is a simulated article about " ++ topic ++ ". It contains information about the topic that would have been scraped from actual news sources. The content includes various aspects and perspectives on the subject matter.\n\nExperts have been discussing the implications of recent developments related to " ++ topic ++ ". Some argue that it represents a significant shift in how we understand the topic.\n\nFurther research is ongoing to fully understand the nuances of " ++ topic ++ " and its impact on various sectors.",
    publishedAt := today }

/-- Second synthetic backfill record of the template backend
(src/unnamed/part_000 lines 273-278). -/
def synTpl2 (topic twoDaysAgo : String) : ScrapedContent :=
  { url := "https://example.com/article2",
    title := "Historical context of " ++ topic,
    text := "Here's some historical background on " ++ topic ++ ". This topic has evolved significantly over the past decade.\n\nMany factors have contributed to how " ++ topic ++ " is perceived today. Economic, social, and political elements all play a role in shaping the discourse.\n\nCommunities worldwide have experienced the effects of " ++ topic ++ " in different ways. Their stories provide valuable insights into the global impact of this subject.",
    publishedAt := twoDaysAgo }

/-- First synthetic backfill record of the main.go backend
(src/backend/main.go lines 292-297). -/
def synMain1 (topic today : String) : ScrapedContent :=
  { url := "https://example.com/article1",
    title := "Latest developments on " ++ topic,
    text := "This is a simulated article about " ++ topic ++ ". It contains information about the topic that would have been scraped from actual news sources.\n\nExperts have been discussing " ++ topic ++ " extensively.\n\nFurther research on " ++ topic ++ " is ongoing.",
    publishedAt := today }

/-- Second synthetic backfill record of the main.go backend
(src/backend/main.go lines 298-303). -/
def synMain2 (topic twoDaysAgo : String) : ScrapedContent :=
  { url := "https://example.com/article2",
    title := "Historical context of " ++ topic,
    text := "Here's some historical background on " ++ topic ++ ". This topic has evolved over time.\n\nMany factors have shaped " ++ topic ++ " today.\n\nCommunities have experienced " ++ topic ++ " differently.",
    publishedAt := twoDaysAgo }

/-- `scrapeContentForTopic`, template backend (src/unnamed/part_000 lines
190-283).  `search`/`wiki` model the outcome of `c.Visit` on the primary and
fallback entry points: `none` means the visit returned a transport error,
`some elems` means it succeeded and traversal matched `elems`.  When the
primary visit fails and the fallback visit also fails, the function returns
the collected corpus as-is — the backfill at lines 264-280 is not reached.
Otherwise an empty corpus is replaced by the two synthetic records. -/
def scrapeContentForTopic (topic : String) (search wiki : Option (List PageElement))
    (today twoDaysAgo : String) : List ScrapedContent :=
  match search, wiki with
  | some elems, _ =>
    let contents := collectScraped 5 elems
    if contents.length = 0 then [synTpl1 topic today, synTpl2 topic twoDaysAgo] else contents
  | none, some elems =>
    let contents := collectScraped 5 elems
    if contents.length = 0 then [synTpl1 topic today, synTpl2 topic twoDaysAgo] else contents
  | none, none => []

/-- `scrapeContentForTopic`, main.go backend (src/backend/main.go lines
223-308).  Failure of both entry-point visits is only logged, so control
always reaches the backfill: whenever fewer than 5 records were collected,
the fixed batch of two synthetic records is appended. -/
def scrapeContentForTopicMain (topic : String) (search wiki : Option (List PageElement))
    (today twoDaysAgo : String) : List ScrapedContent :=
  let contents := match search, wiki with
    | some elems, _ => collectScraped 50 elems
    | none, some elems => collectScraped 50 elems
    | none, none => []
  if contents.length < 5 then contents ++ [synMain1 topic today, synMain2 topic twoDaysAgo]
  else contents

/-! ## Image Resolver (Pexels) -/

/-- Nested `src` object of one Pexels photo (src/unnamed/part_000 lines 70-77). -/
structure PexelsSrc where
  medium : String := ""
  large : String := ""
deriving DecidableEq

/-- One Pexels photo result. -/
structure PexelsPhoto where
  src : PexelsSrc := {}
deriving DecidableEq

/-- `PexelsResponse` (src/unnamed/part_000 lines 70-77). -/
structure PexelsResponse where
  photos : List PexelsPhoto := []
deriving DecidableEq

/-- Outcome of the one outbound provider call in `getTopicImage`:
`transportError` covers `http.NewRequest` and `client.Do` failures;
otherwise a status code plus either a decodable body or `none` for a body
`json.Decode` rejects. -/
inductive PexelsResult where
  | transportError
  | response (status : Nat) (body : Option PexelsResponse)
deriving DecidableEq

/-- The fixed fallback image URL (src/unnamed/part_000 line 288). -/
def defaultImage : String :=
  "https://cdn.pixabay.com/photo/2018/01/12/10/19/fantasy-3077928_1280.jpg"

/-- `getTopicImage` (src/unnamed/part_000 lines 286-340).  `apiKey` is the
`PEXELS_API_KEY` environment value (`""` when unset) and `fetch` maps the
query to the provider call's outcome. -/
def getTopicImage (apiKey : String) (fetch : String → PexelsResult) (topic : String) : String :=
  if apiKey = "" then defaultImage
  else
    match fetch topic with
    | PexelsResult.transportError => defaultImage
    | PexelsResult.response status body =>
      if status ≠ 200 then defaultImage
      else
        match body with
        | none => defaultImage
        | some resp =>
          match resp.photos with
          | [] => defaultImage
          | p :: _ => p.src.large

/-- A provider environment in which every call fails at transport level. -/
def failFetch : String → PexelsResult := fun _ => PexelsResult.transportError

/-! ## Synthesizer (template mode) -/

/-- `minInt` (src/unnamed/part_000 lines 516-521), used on non-negative
lengths only, hence modelled on `Nat`. -/
def minInt (a b : Nat) : Nat :=
  if a < b then a else b

/-- `generateBlogPost` (src/unnamed/part_000 lines 343-401).  The generated
UUID and `time.Now` date are injected as `blogID` and `today`; image lookups
go through `getTopicImage` exactly as in the source. -/
def generateBlogPost (apiKey : String) (fetch : String → PexelsResult)
    (blogID today : String) (prompt : LlamaIndexPrompt) : BlogPost :=
  let featuredImageURL := getTopicImage apiKey fetch prompt.topic
  let contentImage1 := getTopicImage apiKey fetch (prompt.topic ++ " overview")
  let contentImage2 := getTopicImage apiKey fetch (prompt.topic ++ " detail")
  let baseContent : List BlogContent :=
    [{ type := "heading", level := 1,
       text := "Understanding " ++ prompt.topic ++ ": A Comprehensive Overview" },
     { type := "paragraph",
       text := "In recent times, " ++ prompt.topic ++ " has become an increasingly important topic in global discourse. This article aims to provide a thorough analysis based on the latest information available from reliable sources." },
     { type := "image", url := contentImage1,
       alt := "Illustration of " ++ prompt.topic,
       caption := "Visual representation of key aspects related to " ++ prompt.topic },
     { type := "heading", level := 2, text := "Current State and Recent Developments" }]
  let corpusParas : List BlogContent :=
    match prompt.contents with
    | [] => []
    | c :: _ =>
      let paragraphs := goSplitBlank c.text
      ((paragraphs.take (minInt 3 paragraphs.length)).filter (fun p => 0 < p.length)).map
        (fun p => { type := "paragraph", text := p })
  let tailContent : List BlogContent :=
    [{ type := "heading", level := 2, text := "Key Factors and Analysis" },
     { type := "paragraph",
       text := "Several key factors influence the current state of " ++ prompt.topic ++ ". Understanding these elements is crucial for a comprehensive perspective." },
     { type := "list",
       items := ["Economic implications of " ++ prompt.topic ++ " on global markets",
                 "Social and cultural impact of " ++ prompt.topic ++ " on communities",
                 "Technological advancements related to " ++ prompt.topic,
                 "Regulatory frameworks surrounding " ++ prompt.topic],
       ordered := false },
     { type := "image", url := contentImage2,
       alt := "Impact of " ++ prompt.topic,
       caption := "Visualizing the multifaceted impact of " ++ prompt.topic },
     { type := "heading", level := 2, text := "Expert Opinions and Insights" },
     { type := "quote",
       text := "The development of " ++ prompt.topic ++ " represents one of the most significant shifts in this field that we've seen in the past decade.",
       citation := "Industry Expert" }]
  { id := blogID,
    title := "Comprehensive Guide to " ++ prompt.topic ++ ": Latest Insights and Developments",
    author := "AI Content Generator",
    date := today,
    summary := "An in-depth look at " ++ prompt.topic ++ ", examining the latest developments, key insights, and future implications based on the most current information available.",
    content := baseContent ++ corpusParas ++ tailContent,
    featuredImage := featuredImageURL,
    tags := [prompt.topic, "News", "Analysis"],
    readingTime := 5,
    topic := prompt.topic }

/-- Outcome of one generation request at the HTTP boundary. -/
inductive HandlerResult where
  | success (blog : BlogPost)
  | failure (status : Nat) (msg : String)
deriving DecidableEq

/-- `generateBlogHandler`, template backend (src/unnamed/part_000 lines
113-162), up to the point where the blog is persisted: empty topic is a 400,
an empty corpus is a 404, otherwise the synthesized document is returned. -/
def generateBlogHandler (topic : String) (search wiki : Option (List PageElement))
    (today twoDaysAgo : String) (apiKey : String) (fetch : String → PexelsResult)
    (blogID : String) : HandlerResult :=
  if topic = "" then HandlerResult.failure 400 "Topic is required"
  else
    let scrapedContents := scrapeContentForTopic topic search wiki today twoDaysAgo
    if scrapedContents.length = 0 then HandlerResult.failure 404 "No content found for this topic"
    else
      HandlerResult.success
        (generateBlogPost apiKey fetch blogID today { topic := topic, contents := scrapedContents })

/-! ## Reading time (main.go backend) -/

/-- `estimateReadingTime` (src/backend/main.go lines 310-318): count
whitespace-separated words over paragraph and heading blocks, divide by 200
and add one. -/
def estimateReadingTime (content : List BlogContent) : Nat :=
  (content.foldl (fun n b =>
    if b.type = "paragraph" ∨ b.type = "heading" then n + (goFields b.text).length else n) 0)
    / 200 + 1

/-- Specification-level word count: the sum of the word counts of the text
of heading and paragraph blocks only. -/
def textWordCount (content : List BlogContent) : Nat :=
  ((content.filter (fun b => b.type = "paragraph" ∨ b.type = "heading")).map
    (fun b => (goFields b.text).length)).sum

/-! ## Image-URL rewriting in the main.go generation handler -/

/-- UTF-8 byte sequence of one character, as Go's `[]byte(string)` yields. -/
def utf8Bytes (c : Char) : List Nat :=
  let n := c.toNat
  if n < 128 then [n]
  else if n < 2048 then [192 + n / 64, 128 + n % 64]
  else if n < 65536 then [224 + n / 4096, 128 + (n / 64) % 64, 128 + n % 64]
  else [240 + n / 262144, 128 + (n / 4096) % 64, 128 + (n / 64) % 64, 128 + n % 64]

/-- Uppercase hexadecimal digit of a value below 16. -/
def upperHexDigit (n : Nat) : Char :=
  if n < 10 then Char.ofNat (48 + n) else Char.ofNat (55 + n)

/-- Bytes Go `url.QueryEscape` leaves unescaped: ASCII alphanumerics and
`-`, `_`, `.`, `~`. -/
def isUnreservedByte (b : Nat) : Bool :=
  (65 ≤ b && b ≤ 90) || (97 ≤ b && b ≤ 122) || (48 ≤ b && b ≤ 57)
    || b = 45 || b = 95 || b = 46 || b = 126

/-- Escape a single byte: unreserved bytes pass through, a space becomes
`+`, everything else becomes `%XX`. -/
def escapeByte (b : Nat) : List Char :=
  if isUnreservedByte b then [Char.ofNat b]
  else if b = 32 then ['+']
  else ['%', upperHexDigit (b / 16), upperHexDigit (b % 16)]

/-- Model of Go `url.QueryEscape`. -/
def queryEscape (s : String) : String :=
  ⟨((s.data.map utf8Bytes).flatten.map escapeByte).flatten⟩

/-- The proxy prefix used by the generation handler
(src/backend/main.go lines 123 and 127). -/
def proxyPrefix : String := "http://localhost:8080/api/proxy-image?url="

/-- The rewritten URL for one original image URL. -/
def proxyImageURL (u : String) : String := proxyPrefix ++ queryEscape u

/-- The image-proxying loop of `generateBlogHandler` (src/backend/main.go
lines 120-127): every block of type `"image"` has its URL replaced by the
proxy URL, and `featuredImage` is replaced unconditionally. -/
def rewriteImageURLs (resp : LlamaIndexResponse) : LlamaIndexResponse :=
  { resp with
    content := resp.content.map (fun b =>
      if b.type = "image" then { b with url := proxyImageURL b.url } else b),
    featuredImage := proxyImageURL resp.featuredImage }

/-- The `BlogPost` assembled by `generateBlogHandler` (src/backend/main.go
lines 129-140) from the provider response after image rewriting, with the
UUID and date injected. -/
def buildBlogFromResponse (resp : LlamaIndexResponse) (topic blogID today : String) : BlogPost :=
  let r := rewriteImageURLs resp
  { id := blogID, title := r.title, author := "AI Content Generator", date := today,
    summary := r.summary, content := r.content, featuredImage := r.featuredImage,
    tags := r.tags, readingTime := estimateReadingTime r.content, topic := topic }

/-! ## Well-formedness of content blocks -/

/-- A block is well formed when its tag is one of the five variants, a list
block has non-empty items, and a heading block has a positive level. -/
def wellFormedBlock (b : BlogContent) : Bool :=
  (b.type = "heading" || b.type = "paragraph" || b.type = "image"
      || b.type = "quote" || b.type = "list")
    && (b.type != "list" || !b.items.isEmpty)
    && (b.type != "heading" || decide (1 ≤ b.level))

/-- Concatenation of a list of strings, used to state the extractor's
body-assembly property. -/
def concatAll : List String → String
  | [] => ""
  | s :: rest => s ++ concatAll rest

/-- A string of `n` whitespace-separated one-letter words. -/
def sampleWords : Nat → String
  | 0 => ""
  | 1 => "w"
  | n + 2 => "w " ++ sampleWords (n + 1)

/-- Tiny documents used to instantiate store theorems on concrete inputs. -/
def sampleDoc1 : BlogPost :=
  { id := "doc-a", title := "A", author := "AI Content Generator", date := "2025-01-01",
    summary := "first", content := [{ type := "paragraph", text := "alpha" }],
    featuredImage := defaultImage, tags := ["A", "News", "Analysis"],
    readingTime := 1, topic := "A" }

/-- Second sample document. -/
def sampleDoc2 : BlogPost :=
  { id := "doc-b", title := "B", author := "AI Content Generator", date := "2025-01-02",
    summary := "second", content := [{ type := "heading", level := 1, text := "beta" }],
    featuredImage := defaultImage, tags := ["B", "News", "Analysis"],
    readingTime := 1, topic := "B" }

/-- Third sample document. -/
def sampleDoc3 : BlogPost :=
  { id := "doc-c", title := "C", author := "AI Content Generator", date := "2025-01-03",
    summary := "third",
    content := [{ type := "list", items := ["x", "y"], ordered := true }],
    featuredImage := defaultImage, tags := ["C", "News", "Analysis"],
    readingTime := 1, topic := "C" }

/-- A provider environment answering every query with one photo. -/
def okFetch : String → PexelsResult :=
  fun _ => PexelsResult.response 200
    (some { photos := [{ src := { medium := "https://images.pexels.com/m.jpg",
                                  large := "https://images.pexels.com/l.jpg" } }] })

/-- A provider environment answering with a non-success status. -/
def status500Fetch : String → PexelsResult :=
  fun _ => PexelsResult.response 500 (some { photos := [] })

/-- A provider environment answering 200 with an undecodable body. -/
def badBodyFetch : String → PexelsResult :=
  fun _ => PexelsResult.response 200 none

/-- A provider environment answering 200 with zero results. -/
def emptyFetch : String → PexelsResult :=
  fun _ => PexelsResult.response 200 (some { photos := [] })

/-- A concrete provider response used to instantiate the image-rewrite
theorem on a concrete input. -/
def sampleResponse : LlamaIndexResponse :=
  { title := "Sample", summary := "s",
    content := [{ type := "image", url := "https://img.example/a b.png", alt := "a" },
                { type := "paragraph", text := "some text" }],
    featuredImage := "https://img.example/feat.png",
    tags := ["x"] }

/-- The corpus the template crawl produces for topic "Renewable Energy"
when an entry point is reachable but no usable records are scraped. -/
def renewableCorpus : List ScrapedContent :=
  [synTpl1 "Renewable Energy" "2025-01-01", synTpl2 "Renewable Energy" "2024-12-30"]

/-- The document the template pipeline synthesizes from that corpus with no
image-provider credential configured. -/
def renewableBlog : BlogPost :=
  generateBlogPost "" failFetch "B1" "2025-01-01"
    { topic := "Renewable Energy", contents := renewableCorpus }

/-! ## Theorems -/

theorem buildBody_foldl_eq (paras : List String) (acc : String) :
    paras.foldl (fun acc p =>
      let t := goTrim p
      if 20 < t.length then acc ++ t ++ "\n\n" else acc) acc
      = acc ++ concatAll (((paras.map goTrim).filter (fun t => 20 < t.length)).map
          (fun t => t ++ "\n\n")) := by
  induction paras generalizing acc with
  | nil => simp [concatAll]
  | cons p rest ih =>
    rw [List.foldl_cons, ih]
    simp only [List.map_cons, List.filter_cons]
    by_cases h : 20 < (goTrim p).length
    · simp [h, concatAll, String.append_assoc]
    · simp [h]

/-- C7: the extraction callback trims each paragraph-like node; contrary to
the claim it keeps only trimmed paragraphs whose length strictly exceeds 20
characters (a paragraph of exactly 20 characters is discarded), and the
record body is the concatenation of each survivor followed by a blank-line
separator, so the body carries a trailing separator. -/
theorem extractor_body_amended (paras : List String) :
    buildBody paras =
      concatAll (((paras.map goTrim).filter (fun t => 20 < t.length)).map
        (fun t => t ++ "\n\n")) := by
  have h := buildBody_foldl_eq paras ""
  simpa [buildBody] using h

/-- C7 counterexample: a paragraph whose trimmed text is exactly 20
characters long is discarded (the claim says it is kept), and a body built
from two surviving paragraphs ends with a trailing blank-line separator
(the claim says there is no trailing separator). -/
theorem extractor_body_counterexample :
    goTrim " aaaaaaaaaaaaaaaaaaaa " = "aaaaaaaaaaaaaaaaaaaa" ∧
    ("aaaaaaaaaaaaaaaaaaaa" : String).length = 20 ∧
    buildBody [" aaaaaaaaaaaaaaaaaaaa "] = "" ∧
    buildBody ["this paragraph is well over twenty", "this one is also well over twenty"] =
      "this paragraph is well over twenty\n\nthis one is also well over twenty\n\n" ∧
    buildBody ["this paragraph is well over twenty", "this one is also well over twenty"] ≠
      "this paragraph is well over twenty\n\nthis one is also well over twenty" := by
  decide

/-- C1 counterexample: with both entry-point visits failing (every network
fetch fails), the template backend's crawl returns the empty corpus — the
backfill step is never reached — and the main.go backend's backfill appends
only two synthetic records, short of its own five-record trigger. -/
theorem crawl_minimum_counterexample :
    scrapeContentForTopic "Renewable Energy" none none "2025-01-01" "2024-12-30" = [] ∧
    (scrapeContentForTopicMain "Renewable Energy" none none "2025-01-01" "2024-12-30").length
      = 2 := by
  decide

/-- C1 amended: the main.go crawl always returns at least two records (it
appends a fixed batch of two synthetic records whenever fewer than five were
collected, so the five-record trigger itself need not be reached); the
template crawl returns a non-empty corpus whenever at least one entry-point
visit succeeds, but when both the primary and the fallback visits fail it
returns the corpus as-is — empty — without running the backfill. -/
theorem crawl_minimum_amended :
    (∀ topic s w today e, 2 ≤ (scrapeContentForTopicMain topic s w today e).length) ∧
    (∀ topic elems w today e, scrapeContentForTopic topic (some elems) w today e ≠ []) ∧
    (∀ topic elems today e, scrapeContentForTopic topic none (some elems) today e ≠ []) ∧
    (∀ topic today e, scrapeContentForTopic topic none none today e = []) := by
  have key : ∀ (X : List ScrapedContent) (a b : ScrapedContent),
      2 ≤ (if X.length < 5 then X ++ [a, b] else X).length := by
    intro X a b
    split
    · simp
    · omega
  have tplKey : ∀ (X : List ScrapedContent) (a b : ScrapedContent),
      (if X.length = 0 then [a, b] else X) ≠ [] := by
    intro X a b
    split
    · simp
    · next h => exact fun hX => h (by simp [hX])
  refine ⟨?_, ?_, ?_, ?_⟩
  · intro topic s w today e
    unfold scrapeContentForTopicMain
    rcases s with _ | elems
    · rcases w with _ | elems
      · exact key _ _ _
      · exact key _ _ _
    · exact key _ _ _
  · intro topic elems w today e
    unfold scrapeContentForTopic
    exact tplKey _ _ _
  · intro topic elems today e
    unfold scrapeContentForTopic
    exact tplKey _ _ _
  · intro topic today e
    rfl

theorem collect_invariant (maxCount : Nat) (elems : List PageElement)
    (acc : List ScrapedContent)
    (hacc : ∀ x ∈ acc, x.title ≠ "" ∧ 100 < x.text.length) :
    ∀ x ∈ List.foldl (fun acc e =>
      if maxCount ≤ acc.length then acc
      else
        let c := extractFromElement e
        if c.title ≠ "" ∧ 100 < c.text.length then acc ++ [c] else acc) acc elems,
    x.title ≠ "" ∧ 100 < x.text.length := by
  induction elems generalizing acc with
  | nil => exact hacc
  | cons e rest ih =>
    intro x hx
    simp only [List.foldl_cons] at hx
    refine ih _ ?_ x hx
    intro y hy
    by_cases h1 : maxCount ≤ acc.length
    · rw [if_pos h1] at hy
      exact hacc y hy
    · rw [if_neg h1] at hy
      by_cases h2 : (extractFromElement e).title ≠ "" ∧ 100 < (extractFromElement e).text.length
      · rw [if_pos h2] at hy
        rcases List.mem_append.mp hy with hmem | hmem
        · exact hacc y hmem
        · simp only [List.mem_singleton] at hmem
          exact hmem ▸ h2
      · rw [if_neg h2] at hy
        exact hacc y hy

theorem mem_collectScraped {maxCount : Nat} {elems : List PageElement} {r : ScrapedContent}
    (h : r ∈ collectScraped maxCount elems) : r.title ≠ "" ∧ 100 < r.text.length := by
  unfold collectScraped at h
  exact collect_invariant maxCount elems [] (by simp) r h

theorem synTpl1_ok (t d : String) :
    (synTpl1 t d).title ≠ "" ∧ 100 < (synTpl1 t d).text.length := by
  constructor
  · intro h
    have h2 := congrArg String.length h
    simp only [synTpl1, String.length_append] at h2
    have h3 : ("Latest developments on " : String).length = 23 := by decide
    have h4 : ("" : String).length = 0 := by decide
    omega
  · simp only [synTpl1, String.length_append]
    have h1 : ("This is a simulated article about " : String).length = 34 := by decide
    have h2 : (". It contains information about the topic that would have been scraped from actual news sources. The content includes various aspects and perspectives on the subject matter.\n\nExperts have been discussing the implications of recent developments related to " : String).length = 255 := by decide
    omega

theorem synTpl2_ok (t d : String) :
    (synTpl2 t d).title ≠ "" ∧ 100 < (synTpl2 t d).text.length := by
  constructor
  · intro h
    have h2 := congrArg String.length h
    simp only [synTpl2, String.length_append] at h2
    have h3 : ("Historical context of " : String).length = 22 := by decide
    have h4 : ("" : String).length = 0 := by decide
    omega
  · simp only [synTpl2, String.length_append]
    have h1 : ("Here's some historical background on " : String).length = 37 := by decide
    have h2 : (". This topic has evolved significantly over the past decade.\n\nMany factors have contributed to how " : String).length = 99 := by decide
    omega

theorem synMain1_ok (t d : String) :
    (synMain1 t d).title ≠ "" ∧ 100 < (synMain1 t d).text.length := by
  constructor
  · intro h
    have h2 := congrArg String.length h
    simp only [synMain1, String.length_append] at h2
    have h3 : ("Latest developments on " : String).length = 23 := by decide
    have h4 : ("" : String).length = 0 := by decide
    omega
  · simp only [synMain1, String.length_append]
    have h1 : ("This is a simulated article about " : String).length = 34 := by decide
    have h2 : (". It contains information about the topic that would have been scraped from actual news sources.\n\nExperts have been discussing " : String).length = 127 := by decide
    omega

theorem synMain2_ok (t d : String) :
    (synMain2 t d).title ≠ "" ∧ 100 < (synMain2 t d).text.length := by
  constructor
  · intro h
    have h2 := congrArg String.length h
    simp only [synMain2, String.length_append] at h2
    have h3 : ("Historical context of " : String).length = 22 := by decide
    have h4 : ("" : String).length = 0 := by decide
    omega
  · simp only [synMain2, String.length_append]
    have h1 : ("Here's some historical background on " : String).length = 37 := by decide
    have h2 : (". This topic has evolved over time.\n\nMany factors have shaped " : String).length = 62 := by decide
    have h3 : (" today.\n\nCommunities have experienced " : String).length = 38 := by decide
    have h4 : (" differently." : String).length = 13 := by decide
    omega

/-- C4: every record of any corpus either crawl variant returns — scraped
or backfilled — has a non-empty title and a body longer than 100
characters. -/
theorem corpus_record_invariant (topic : String) (s w : Option (List PageElement))
    (today e : String) (r : ScrapedContent) :
    (r ∈ scrapeContentForTopic topic s w today e → r.title ≠ "" ∧ 100 < r.text.length) ∧
    (r ∈ scrapeContentForTopicMain topic s w today e → r.title ≠ "" ∧ 100 < r.text.length) := by
  constructor
  · intro h
    unfold scrapeContentForTopic at h
    rcases s with _ | elems
    · rcases w with _ | elems
      · simp at h
      · dsimp only at h
        split at h
        · simp only [List.mem_cons, List.not_mem_nil, or_false] at h
          rcases h with rfl | rfl
          · exact synTpl1_ok topic today
          · exact synTpl2_ok topic e
        · exact mem_collectScraped h
    · dsimp only at h
      split at h
      · simp only [List.mem_cons, List.not_mem_nil, or_false] at h
        rcases h with rfl | rfl
        · exact synTpl1_ok topic today
        · exact synTpl2_ok topic e
      · exact mem_collectScraped h
  · intro h
    unfold scrapeContentForTopicMain at h
    have base : ∀ (X : List ScrapedContent),
        (∀ x ∈ X, x.title ≠ "" ∧ 100 < x.text.length) →
        r ∈ (if X.length < 5 then X ++ [synMain1 topic today, synMain2 topic e] else X) →
        r.title ≠ "" ∧ 100 < r.text.length := by
      intro X hX hr
      split at hr
      · rcases List.mem_append.mp hr with hm | hm
        · exact hX r hm
        · simp only [List.mem_cons, List.not_mem_nil, or_false] at hm
          rcases hm with rfl | rfl
          · exact synMain1_ok topic today
          · exact synMain2_ok topic e
      · exact hX r hr
    rcases s with _ | elems
    · rcases w with _ | elems
      · exact base [] (by simp) h
      · exact base _ (fun x hx => mem_collectScraped hx) h
    · exact base _ (fun x hx => mem_collectScraped hx) h

/-- C4 witness: the invariant instantiated on a concrete backfilled corpus
for topic "AI" in both variants. -/
theorem corpus_record_invariant_witness :
    (synTpl1 "AI" "2025-01-01" ∈
        scrapeContentForTopic "AI" none (some []) "2025-01-01" "2024-12-30" ∧
      (synTpl1 "AI" "2025-01-01").title ≠ "" ∧ 100 < (synTpl1 "AI" "2025-01-01").text.length) ∧
    (synMain1 "AI" "2025-01-01" ∈
        scrapeContentForTopicMain "AI" none none "2025-01-01" "2024-12-30" ∧
      (synMain1 "AI" "2025-01-01").title ≠ "" ∧ 100 < (synMain1 "AI" "2025-01-01").text.length) := by
  refine ⟨⟨by decide, ?_⟩, ⟨by decide, ?_⟩⟩
  · exact (corpus_record_invariant "AI" none (some []) "2025-01-01" "2024-12-30"
      (synTpl1 "AI" "2025-01-01")).1 (by decide)
  · exact (corpus_record_invariant "AI" none none "2025-01-01" "2024-12-30"
      (synMain1 "AI" "2025-01-01")).2 (by decide)

theorem getField_optF_ne (skip : Bool) (k : String) (v : Json)
    (rest : List (String × Json)) (n : String) (h : k ≠ n) :
    getField (optF skip k v ++ rest) n = getField rest n := by
  cases skip <;> simp [optF, getField, h]

theorem getField_optF_eq (skip : Bool) (k : String) (v : Json) (rest : List (String × Json)) :
    getField (optF skip k v ++ rest) k = if skip then getField rest k else some v := by
  cases skip <;> simp [optF, getField]

theorem getField_optF_single (skip : Bool) (k : String) (v : Json) (n : String) (h : k ≠ n) :
    getField (optF skip k v) n = none := by
  cases skip <;> simp [optF, getField, h]

theorem decodeStrings_map_str (l : List String) :
    decodeStrings (l.map Json.str) = some l := by
  induction l with
  | nil => rfl
  | cons a t ih => simp [decodeStrings, ih]

theorem decF_type (b : BlogContent) :
    asStr (getField (encFields b) "type") = some b.type := by
  simp [encFields, getField, asStr]

theorem decF_text (b : BlogContent) :
    asStr (getField (encFields b) "text") = some b.text := by
  by_cases h : b.text = "" <;>
    simp [encFields, getField, getField_optF_ne, getField_optF_eq, getField_optF_single,
      h, asStr]

theorem decF_level (b : BlogContent) :
    asNat (getField (encFields b) "level") = some b.level := by
  by_cases h : b.level = 0 <;>
    simp [encFields, getField, getField_optF_ne, getField_optF_eq, getField_optF_single, h, asNat]

theorem decF_url (b : BlogContent) :
    asStr (getField (encFields b) "url") = some b.url := by
  by_cases h : b.url = "" <;>
    simp [encFields, getField, getField_optF_ne, getField_optF_eq, getField_optF_single, h, asStr]

theorem decF_alt (b : BlogContent) :
    asStr (getField (encFields b) "alt") = some b.alt := by
  by_cases h : b.alt = "" <;>
    simp [encFields, getField, getField_optF_ne, getField_optF_eq, getField_optF_single, h, asStr]

theorem decF_caption (b : BlogContent) :
    asStr (getField (encFields b) "caption") = some b.caption := by
  by_cases h : b.caption = "" <;>
    simp [encFields, getField, getField_optF_ne, getField_optF_eq, getField_optF_single, h, asStr]

theorem decF_citation (b : BlogContent) :
    asStr (getField (encFields b) "citation") = some b.citation := by
  by_cases h : b.citation = "" <;>
    simp [encFields, getField, getField_optF_ne, getField_optF_eq, getField_optF_single, h, asStr]

theorem decF_items (b : BlogContent) :
    asStrList (getField (encFields b) "items") = some b.items := by
  by_cases h : b.items = [] <;>
    simp [encFields, getField, getField_optF_ne, getField_optF_eq, getField_optF_single,
      h, asStrList, decodeStrings_map_str]

theorem decF_ordered (b : BlogContent) :
    asBool (getField (encFields b) "ordered") = some b.ordered := by
  by_cases h : b.ordered = false <;>
    simp [encFields, getField, getField_optF_ne, getField_optF_eq, getField_optF_single, h, asBool]

theorem decode_encode_content (b : BlogContent) :
    decodeBlogContent (encodeBlogContent b) = some b := by
  simp only [encodeBlogContent, decodeBlogContent, decF_type, decF_text, decF_level,
    decF_url, decF_alt, decF_caption, decF_citation, decF_items, decF_ordered,
    Option.bind_some, Option.some_bind, Option.bind_eq_bind]

theorem decodeContents_map_encode (l : List BlogContent) :
    decodeContents (l.map encodeBlogContent) = some l := by
  induction l with
  | nil => rfl
  | cons a t ih => simp [decodeContents, decode_encode_content, ih]

theorem decode_encode_post (b : BlogPost) :
    decodeBlogPost (encodeBlogPost b) = some b := by
  simp [encodeBlogPost, decodeBlogPost, getField, asStr, asNat, asStrList,
    decodeStrings_map_str, decodeContents_map_encode]

theorem fsRead_fsWrite (st : List (String × Json)) (k : String) (v : Json) :
    fsRead (fsWrite st k v) k = some v := by
  induction st with
  | nil => simp [fsWrite, fsRead]
  | cons e rest ih =>
    obtain ⟨k', v'⟩ := e
    by_cases h : k' = k
    · simp [fsWrite, fsRead, h]
    · simp [fsWrite, fsRead, h, ih]

/-- C2: saving any document and reading it back by its id returns a
document equal to it in every field, including the `type` tag and all
variant fields of every content block — the JSON layout (with its
`omitempty` block fields) is a lossless serialization of the schema. -/
theorem save_getByID_roundtrip (store : List (String × Json)) (d : BlogPost) :
    getBlogByID (saveBlogPost store d) d.id = some d := by
  unfold getBlogByID saveBlogPost
  rw [fsRead_fsWrite]
  simp [decode_encode_post]

theorem decode_corrupt : decodeBlogPost corruptJson = none := rfl

/-- C6: after saving three documents with distinct ids and corrupting the
second one's stored record, listing all blogs returns exactly the first and
third documents — the corrupt record is skipped, not failed on. -/
theorem getAllBlogs_skips_corrupt (d1 d2 d3 : BlogPost)
    (h12 : d1.id ≠ d2.id) (h13 : d1.id ≠ d3.id) (h23 : d2.id ≠ d3.id) :
    getAllBlogs (fsWrite (saveBlogPost (saveBlogPost (saveBlogPost [] d1) d2) d3)
        d2.id corruptJson) = [d1, d3] := by
  unfold saveBlogPost
  simp [fsWrite, h12, h13, h23, getAllBlogs, decode_encode_post, decode_corrupt]

/-- C6 witness: the skip-on-corruption property instantiated on three
concrete documents. -/
theorem getAllBlogs_skips_corrupt_witness :
    sampleDoc1.id ≠ sampleDoc2.id ∧ sampleDoc1.id ≠ sampleDoc3.id ∧
    sampleDoc2.id ≠ sampleDoc3.id ∧
    getAllBlogs (fsWrite (saveBlogPost (saveBlogPost (saveBlogPost [] sampleDoc1) sampleDoc2)
        sampleDoc3) sampleDoc2.id corruptJson) = [sampleDoc1, sampleDoc3] :=
  ⟨by decide, by decide, by decide,
    getAllBlogs_skips_corrupt sampleDoc1 sampleDoc2 sampleDoc3
      (by decide) (by decide) (by decide)⟩

/-- C5: the image resolver never fails its caller: with no configured
credential, or a transport error, or a non-success status, or an
unparseable body, or zero results it returns the fixed default image URL,
and otherwise it returns the URL of the provider's first result. -/
theorem getTopicImage_total_spec (apiKey : String) (fetch : String → PexelsResult)
    (topic : String) :
    (apiKey = "" → getTopicImage apiKey fetch topic = defaultImage) ∧
    (fetch topic = PexelsResult.transportError →
      getTopicImage apiKey fetch topic = defaultImage) ∧
    (∀ status body, fetch topic = PexelsResult.response status body → status ≠ 200 →
      getTopicImage apiKey fetch topic = defaultImage) ∧
    (fetch topic = PexelsResult.response 200 none →
      getTopicImage apiKey fetch topic = defaultImage) ∧
    (∀ resp, fetch topic = PexelsResult.response 200 (some resp) → resp.photos = [] →
      getTopicImage apiKey fetch topic = defaultImage) ∧
    (∀ resp p rest, apiKey ≠ "" → fetch topic = PexelsResult.response 200 (some resp) →
      resp.photos = p :: rest → getTopicImage apiKey fetch topic = p.src.large) := by
  refine ⟨?_, ?_, ?_, ?_, ?_, ?_⟩
  · intro h
    simp [getTopicImage, h]
  · intro h
    by_cases hk : apiKey = "" <;> simp [getTopicImage, hk, h]
  · intro status body h hs
    by_cases hk : apiKey = "" <;> simp [getTopicImage, hk, h, hs]
  · intro h
    by_cases hk : apiKey = "" <;> simp [getTopicImage, hk, h]
  · intro resp h hp
    by_cases hk : apiKey = "" <;> simp [getTopicImage, hk, h, hp]
  · intro resp p rest hk h hp
    simp [getTopicImage, hk, h, hp]

/-- C5 witness: the resolver evaluated in concrete environments covering a
missing credential, a transport error, a non-success status, an unparseable
body, zero results, and one result. -/
theorem getTopicImage_total_spec_witness :
    getTopicImage "" okFetch "sunset" = defaultImage ∧
    getTopicImage "key" failFetch "sunset" = defaultImage ∧
    getTopicImage "key" status500Fetch "sunset" = defaultImage ∧
    getTopicImage "key" badBodyFetch "sunset" = defaultImage ∧
    getTopicImage "key" emptyFetch "sunset" = defaultImage ∧
    getTopicImage "key" okFetch "sunset" = "https://images.pexels.com/l.jpg" :=
  ⟨(getTopicImage_total_spec "" okFetch "sunset").1 rfl,
   (getTopicImage_total_spec "key" failFetch "sunset").2.1 rfl,
   (getTopicImage_total_spec "key" status500Fetch "sunset").2.2.1 500
     (some { photos := [] }) rfl (by decide),
   (getTopicImage_total_spec "key" badBodyFetch "sunset").2.2.2.1 rfl,
   (getTopicImage_total_spec "key" emptyFetch "sunset").2.2.2.2.1 { photos := [] } rfl rfl,
   (getTopicImage_total_spec "key" okFetch "sunset").2.2.2.2.2
     { photos := [{ src := { medium := "https://images.pexels.com/m.jpg",
                             large := "https://images.pexels.com/l.jpg" } }] }
     { src := { medium := "https://images.pexels.com/m.jpg",
                large := "https://images.pexels.com/l.jpg" } }
     [] (by decide) rfl rfl⟩

theorem words_foldl_eq (content : List BlogContent) (n : Nat) :
    content.foldl (fun n b =>
      if b.type = "paragraph" ∨ b.type = "heading" then n + (goFields b.text).length else n) n
      = n + textWordCount content := by
  induction content generalizing n with
  | nil => simp [textWordCount]
  | cons b rest ih =>
    rw [List.foldl_cons, ih]
    unfold textWordCount
    by_cases h : b.type = "paragraph" ∨ b.type = "heading"
    · simp [h, List.filter_cons]
      omega
    · simp [h, List.filter_cons]

/-- C3 amended: in the external-provider backend, `readingTime` equals
`floor(W/200)+1` where `W` counts whitespace-separated words over heading
and paragraph block text only, so it is at least 1, a 199-word document gets
1 and a 200-word document gets 2; the template backend, however, sets
`readingTime` to the constant 5 for every document it produces. -/
theorem readingTime_amended :
    (∀ content, estimateReadingTime content = textWordCount content / 200 + 1) ∧
    (∀ content, 1 ≤ estimateReadingTime content) ∧
    estimateReadingTime [{ type := "paragraph", text := sampleWords 199 }] = 1 ∧
    estimateReadingTime [{ type := "paragraph", text := sampleWords 200 }] = 2 ∧
    (∀ resp topic blogID today,
      (buildBlogFromResponse resp topic blogID today).readingTime =
        estimateReadingTime (rewriteImageURLs resp).content) ∧
    (∀ apiKey fetch blogID today prompt,
      (generateBlogPost apiKey fetch blogID today prompt).readingTime = 5) := by
  have hmain : ∀ content, estimateReadingTime content = textWordCount content / 200 + 1 := by
    intro content
    unfold estimateReadingTime
    rw [words_foldl_eq content 0, Nat.zero_add]
  refine ⟨hmain, ?_, by decide, by decide, fun resp topic blogID today => rfl,
    fun apiKey fetch blogID today prompt => rfl⟩
  intro content
  rw [hmain content]
  omega

/-- C3 counterexample: a document produced by the template backend (topic
"AI", empty corpus) has `readingTime = 5`, while `floor(W/200)+1` over its
heading and paragraph blocks is 1 — so "every produced Document" does not
satisfy the formula. -/
theorem readingTime_counterexample :
    (generateBlogPost "" failFetch "B1" "2025-01-01"
        { topic := "AI", contents := [] }).readingTime = 5 ∧
    textWordCount ((generateBlogPost "" failFetch "B1" "2025-01-01"
        { topic := "AI", contents := [] }).content) / 200 + 1 = 1 ∧
    (5 : Nat) ≠ 1 := by
  refine ⟨rfl, by decide, by decide⟩

/-- C8: the template synthesizer is total on an empty corpus: the
corpus-paragraph interleaving is guarded, so it still produces a document
whose content is exactly the ten templated blocks, every block well formed,
with a non-empty title. -/
theorem generateBlogPost_empty_corpus (apiKey : String) (fetch : String → PexelsResult)
    (blogID today topic : String) :
    (generateBlogPost apiKey fetch blogID today { topic := topic, contents := [] }).content =
      [{ type := "heading", level := 1,
         text := "Understanding " ++ topic ++ ": A Comprehensive Overview" },
       { type := "paragraph",
         text := "In recent times, " ++ topic ++ " has become an increasingly important topic in global discourse. This article aims to provide a thorough analysis based on the latest information available from reliable sources." },
       { type := "image", url := getTopicImage apiKey fetch (topic ++ " overview"),
         alt := "Illustration of " ++ topic,
         caption := "Visual representation of key aspects related to " ++ topic },
       { type := "heading", level := 2, text := "Current State and Recent Developments" },
       { type := "heading", level := 2, text := "Key Factors and Analysis" },
       { type := "paragraph",
         text := "Several key factors influence the current state of " ++ topic ++ ". Understanding these elements is crucial for a comprehensive perspective." },
       { type := "list",
         items := ["Economic implications of " ++ topic ++ " on global markets",
                   "Social and cultural impact of " ++ topic ++ " on communities",
                   "Technological advancements related to " ++ topic,
                   "Regulatory frameworks surrounding " ++ topic],
         ordered := false },
       { type := "image", url := getTopicImage apiKey fetch (topic ++ " detail"),
         alt := "Impact of " ++ topic,
         caption := "Visualizing the multifaceted impact of " ++ topic },
       { type := "heading", level := 2, text := "Expert Opinions and Insights" },
       { type := "quote",
         text := "The development of " ++ topic ++ " represents one of the most significant shifts in this field that we've seen in the past decade.",
         citation := "Industry Expert" }] ∧
    ((generateBlogPost apiKey fetch blogID today
        { topic := topic, contents := [] }).content.all wellFormedBlock) = true ∧
    (generateBlogPost apiKey fetch blogID today { topic := topic, contents := [] }).title
      ≠ "" := by
  refine ⟨rfl, rfl, ?_⟩
  intro h
  have h2 := congrArg String.length h
  simp only [generateBlogPost, String.length_append] at h2
  have h3 : ("Comprehensive Guide to " : String).length = 23 := by decide
  have h4 : ("" : String).length = 0 := by decide
  omega

/-- C9 counterexample: with every external host unreachable (both
entry-point visits fail), the template pipeline does not return a Document
at all for topic "Renewable Energy": the crawl returns an empty corpus
without backfilling and the handler answers 404. -/
theorem pipeline_renewable_counterexample :
    generateBlogHandler "Renewable Energy" none none "2025-01-01" "2024-12-30" ""
        failFetch "B1" = HandlerResult.failure 404 "No content found for this topic" := by
  decide

/-- C9 amended: when an entry point is reachable but traversal yields no
usable records (and no image credential is configured), the template
pipeline for topic "Renewable Energy" returns a Document incorporating
three synthetic-sourced paragraphs (not two), with tags exactly
["Renewable Energy", "News", "Analysis"] and the default featured image. -/
theorem pipeline_renewable_amended :
    generateBlogHandler "Renewable Energy" (some []) none "2025-01-01" "2024-12-30" ""
        failFetch "B1" = HandlerResult.success renewableBlog ∧
    renewableBlog.tags = ["Renewable Energy", "News", "Analysis"] ∧
    renewableBlog.featuredImage = defaultImage ∧
    renewableBlog.content.length = 13 ∧
    (renewableBlog.content.drop 4).take 3 =
      [{ type := "paragraph",
         text := "This is a simulated article about Renewable Energy. It contains information about the topic that would have been scraped from actual news sources. The content includes various aspects and perspectives on the subject matter." },
       { type := "paragraph",
         text := "Experts have been discussing the implications of recent developments related to Renewable Energy. Some argue that it represents a significant shift in how we understand the topic." },
       { type := "paragraph",
         text := "Further research is ongoing to fully understand the nuances of Renewable Energy and its impact on various sectors." }] := by
  refine ⟨by decide, by decide, rfl, by decide, by decide⟩

theorem one_le_utf8Bytes (c : Char) : 1 ≤ (utf8Bytes c).length := by
  unfold utf8Bytes
  dsimp only
  split_ifs <;> simp

theorem one_le_escapeByte (b : Nat) : 1 ≤ (escapeByte b).length := by
  unfold escapeByte
  split_ifs <;> simp

theorem length_le_flatten_map {α β : Type} (f : α → List β) (h : ∀ x, 1 ≤ (f x).length)
    (l : List α) : l.length ≤ ((l.map f).flatten).length := by
  induction l with
  | nil => simp
  | cons a t ih =>
    simp only [List.map_cons, List.flatten_cons, List.length_append, List.length_cons]
    have ha := h a
    omega

theorem length_le_queryEscape (u : String) : u.length ≤ (queryEscape u).length := by
  have h1 := length_le_flatten_map utf8Bytes one_le_utf8Bytes u.data
  have h2 := length_le_flatten_map escapeByte one_le_escapeByte ((u.data.map utf8Bytes).flatten)
  exact le_trans h1 h2

theorem proxyImageURL_ne (u : String) : proxyImageURL u ≠ u := by
  intro h
  have h2 := congrArg String.length h
  rw [proxyImageURL, String.length_append] at h2
  have h3 : proxyPrefix.length = 42 := by decide
  have h4 := length_le_queryEscape u
  omega

/-- C10: the external-provider generation handler rewrites every image URL
before the document is assembled: each content block of type "image" ends up
with the proxy URL formed from the query-escaped original, the featured
image is rewritten the same way, and the final URL is never the
provider-returned URL itself. -/
theorem image_proxy_rewrite (resp : LlamaIndexResponse) (topic blogID today : String) :
    (buildBlogFromResponse resp topic blogID today).featuredImage
        = proxyPrefix ++ queryEscape resp.featuredImage ∧
    (buildBlogFromResponse resp topic blogID today).featuredImage ≠ resp.featuredImage ∧
    (buildBlogFromResponse resp topic blogID today).content.length = resp.content.length ∧
    ∀ i (h1 : i < (buildBlogFromResponse resp topic blogID today).content.length)
      (h2 : i < resp.content.length),
      ((buildBlogFromResponse resp topic blogID today).content.get ⟨i, h1⟩).type = "image" →
        ((buildBlogFromResponse resp topic blogID today).content.get ⟨i, h1⟩).url
            = proxyPrefix ++ queryEscape ((resp.content.get ⟨i, h2⟩).url) ∧
        ((buildBlogFromResponse resp topic blogID today).content.get ⟨i, h1⟩).url
            ≠ (resp.content.get ⟨i, h2⟩).url := by
  refine ⟨rfl, proxyImageURL_ne resp.featuredImage, by
    simp [buildBlogFromResponse, rewriteImageURLs], ?_⟩
  intro i h1 h2 htype
  simp only [buildBlogFromResponse, rewriteImageURLs] at htype ⊢
  simp only [List.get_eq_getElem, List.getElem_map] at htype ⊢
  by_cases horig : (resp.content.get ⟨i, h2⟩).type = "image"
  · simp only [List.get_eq_getElem] at horig
    simp only [if_pos horig]
    exact ⟨rfl, proxyImageURL_ne _⟩
  · simp only [List.get_eq_getElem] at horig
    simp only [if_neg horig] at htype
    exact absurd htype horig

/-- C10 witness: the rewrite property instantiated on a concrete provider
response whose first block is an image. -/
theorem image_proxy_rewrite_witness :
    ((buildBlogFromResponse sampleResponse "t" "B1" "2025-01-01").content.get
        ⟨0, by decide⟩).url
      = proxyPrefix ++ queryEscape ((sampleResponse.content.get ⟨0, by decide⟩).url) ∧
    ((buildBlogFromResponse sampleResponse "t" "B1" "2025-01-01").content.get
        ⟨0, by decide⟩).url
      ≠ (sampleResponse.content.get ⟨0, by decide⟩).url :=
  (image_proxy_rewrite sampleResponse "t" "B1" "2025-01-01").2.2.2 0 (by decide) (by decide)
    (by decide)
